import Mathlib

/-!
Verification development for the epyp alias-resolution engine.

The definitions below are a shallow embedding of the Python sources:
 - src/aliasing.py  : Alias, AliasGroup, DFProxyGetItemSpy, DFProxyAliasing
 - src/manager.py   : Manager registry methods and getAliasedDF
 - src/datasource.py: _DataSource._clean_var_list and get_df column selection

Modelling conventions:
 - Machine data values are Int; a pandas Series is a (name?, data) pair and
   a DataFrame is a list of such columns.
 - Python exceptions are values of PyErr, computations return Except PyErr.
 - The two duck-typed proxies are interpreters over a small expression
   language (ColExpr / TBody) standing for the transform lambdas; the
   regular-expression rules are a deep embedding (RE) of the fragment the
   alias patterns use, with re.search semantics (unanchored, leftmost).
 - Both interpreters are structurally recursive on an explicit fuel
   argument, so that closed runs compute by rfl.  The spy's genuine
   1000-call counter from the source is modelled faithfully inside its
   state; the fuel is only the Lean termination budget.  The materializing
   proxy has no guard at all in the source, so for it exhausted fuel
   (PyErr.recursionError) is the analogue of the Python interpreter's
   stack-overflow RecursionError.
-/

namespace Epyp

set_option maxRecDepth 40000

/-- Python exceptions observable from the engine. -/
inductive PyErr where
  /-- ValueError("Infinite loop in aliasing spy: ...") from the spy's call counter. -/
  | valueErrorInfLoop (key : String)
  /-- KeyError: unknown variable name (spy) or missing column (materializer). -/
  | keyError (key : String)
  /-- NameError: the source code references an undefined identifier. -/
  | nameError (ident : String)
  /-- IndexError from str.format with an out-of-range positional argument. -/
  | indexError
  /-- TypeError from applying a series operation to a list of series. -/
  | typeError
  /-- ValueError from pd.concat on an empty list of series. -/
  | valueErrorConcat
  /-- RecursionError: the Python call stack overflows (no engine guard). -/
  | recursionError
  deriving DecidableEq, Repr

/-! ### Regular expressions (`regex` patterns of the aliases) -/

/-- Fragment of the regular-expression language in which the alias patterns
of the claims are written: literal characters, any-character, a trailing
greedy remainder (as in a final `.*`), concatenation and capturing groups. -/
inductive RE where
  | eps
  | ch (c : Char)
  | anyc
  | rem
  | seq (a b : RE)
  | group (a : RE)
  deriving DecidableEq, Repr

/-- Match at a fixed start position: captured groups (in group-opening order,
as Python numbers them) together with the unconsumed remainder. -/
def REmatch : RE → List Char → Option (List String × List Char)
  | RE.eps, s => some ([], s)
  | RE.ch _, [] => none
  | RE.ch c, c1 :: t => if c = c1 then some ([], t) else none
  | RE.anyc, [] => none
  | RE.anyc, _ :: t => some ([], t)
  | RE.rem, _ => some ([], [])
  | RE.seq a b, s =>
    match REmatch a s with
    | none => none
    | some (g1, r1) =>
      match REmatch b r1 with
      | none => none
      | some (g2, r2) => some (g1 ++ g2, r2)
  | RE.group a, s =>
    match REmatch a s with
    | none => none
    | some (g, r) => some (String.mk (s.take (s.length - r.length)) :: g, r)

/-- re.search on a character list: try every start position left to right and
return the groups of the leftmost match. -/
def REsearchChars (r : RE) : List Char → Option (List String)
  | [] => (REmatch r []).map Prod.fst
  | c :: t =>
    match REmatch r (c :: t) with
    | some (g, _) => some g
    | none => REsearchChars r t

/-- re.search(a.regex, key) as used in DFProxyGetItemSpy.__getitem__. -/
def reSearch (r : RE) (s : String) : Option (List String) :=
  REsearchChars r s.data

/-- Character-list form of a pattern with no metacharacters. -/
def litChars : List Char → RE
  | [] => RE.eps
  | c :: t => RE.seq (RE.ch c) (litChars t)

/-- A pattern with no metacharacters: the concatenation of its characters. -/
def litRE (s : String) : RE := litChars s.data

/-! ### Transform bodies (the alias lambdas) -/

/-- One piece of a Python format string: literal text or a positional field. -/
inductive FmtPart where
  | lit (s : String)
  | argn (i : Nat)
  deriving DecidableEq, Repr

/-- Python str.format with positional string arguments; none models the
IndexError raised on an out-of-range field. -/
def formatStr : List FmtPart → List String → Option String
  | [], _ => some ""
  | FmtPart.lit s :: ps, g => (formatStr ps g).map (fun t => s ++ t)
  | FmtPart.argn i :: ps, g =>
    match g.get? i with
    | some s => (formatStr ps g).map (fun t => s ++ t)
    | none => none

/-- Body language of the transform lambdas `fun df grps => ...`: what such a
lambda does with its table-like argument `df`.  `var` is `df[name]`, `varF`
is `df[alias_str.format(*grps)]`, the rest are series arithmetic. -/
inductive ColExpr where
  | var (name : String)
  | varF (parts : List FmtPart)
  | addK (e : ColExpr) (k : Int)
  | mulK (e : ColExpr) (k : Int)
  | addE (a b : ColExpr)
  deriving DecidableEq, Repr

/-- A transform returns a single series or a list of series. -/
inductive TBody where
  | one (e : ColExpr)
  | many (es : List ColExpr)
  deriving DecidableEq, Repr

/-- aliasing.Alias: a compiled regex together with its alias_fct. -/
structure Alias where
  regex : RE
  body : TBody
  deriving DecidableEq, Repr

/-- Alias built from an alias_str (the `lambda df,grps: df[alias_str.format(*grps)]`
branch of Alias.__init__). -/
def strAlias (pattern : RE) (parts : List FmtPart) : Alias :=
  ⟨pattern, TBody.one (ColExpr.varF parts)⟩

/-- aliasing.AliasGroup restricted to what resolution reads: its ordered alias list. -/
structure AliasGroup where
  aliases : List Alias
  deriving DecidableEq, Repr

/-- manager.Manager.add_alias appends the new alias to the group, so list
position is registration order. -/
def addAliasToGroup (g : AliasGroup) (a : Alias) : AliasGroup :=
  ⟨g.aliases ++ [a]⟩

/-- Scan the group's aliases in order and commit to the first one whose regex
matches (the `for a in self._aliases` loop of the spy); returns the alias's
position and the captured groups. -/
def findMatch : List Alias → String → Option (Nat × List String)
  | [], _ => none
  | a :: tl, key =>
    match reSearch a.regex key with
    | some g => some (0, g)
    | none => (findMatch tl key).map (fun p => (p.1 + 1, p.2))

/-! ### The tracing proxy (DFProxyGetItemSpy) -/

/-- Mutable state of DFProxyGetItemSpy: the memoized aliasing map (an entry
is none for a terminal raw column, or the matched alias's position plus the
captured groups), the terminal names discovered, and the call counter.
The map stores the alias position rather than the function object; the two
determine each other through the group's alias list. -/
structure SpyState where
  aliasing_map : List (String × Option (Nat × List String))
  vnames_used : List String
  N_call : Nat
  deriving DecidableEq, Repr

/-- Fresh spy (DFProxyGetItemSpy.__init__ / reset). -/
def SpyState.init : SpyState := ⟨[], [], 0⟩

/-- Work items of the trace interpreter: a __getitem__ call, or the
evaluation of a transform body / expression / expression list against the spy. -/
inductive SpyTask where
  | getItem (key : String)
  | evalBody (grps : List String) (b : TBody)
  | evalExpr (grps : List String) (e : ColExpr)
  | evalList (grps : List String) (es : List ColExpr)
  deriving Repr

/-- DFProxyGetItemSpy.__getitem__ together with the evaluation of transform
bodies against the spy itself.  The fuel only bounds Lean recursion; the
faithful guard is the N_call counter check (raise once the 1001st lookup of
the session begins).  The spy's return value (a dummy series) carries no
information, so the interpreter returns only the updated state. -/
def spyRun (aliases : List Alias) (valid : List String) :
    Nat → SpyState → SpyTask → Except PyErr SpyState
  | 0, _, _ => .error PyErr.recursionError
  | fuel + 1, st, SpyTask.getItem key =>
    if 1000 < st.N_call + 1 then .error (PyErr.valueErrorInfLoop key)
    else
      let st1 : SpyState := { st with N_call := st.N_call + 1 }
      if (st1.aliasing_map.lookup key).isSome then .ok st1
      else
        match findMatch aliases key with
        | some (i, grps) =>
          match aliases.get? i with
          | some a =>
            let st2 : SpyState :=
              { st1 with aliasing_map := st1.aliasing_map ++ [(key, some (i, grps))] }
            spyRun aliases valid fuel st2 (SpyTask.evalBody grps a.body)
          | none => .error PyErr.typeError
        | none =>
          if valid.contains key then
            .ok { st1 with aliasing_map := st1.aliasing_map ++ [(key, none)],
                           vnames_used := st1.vnames_used ++ [key] }
          else .error (PyErr.keyError key)
  | fuel + 1, st, SpyTask.evalBody grps (TBody.one e) =>
    spyRun aliases valid fuel st (SpyTask.evalExpr grps e)
  | fuel + 1, st, SpyTask.evalBody grps (TBody.many es) =>
    spyRun aliases valid fuel st (SpyTask.evalList grps es)
  | _ + 1, st, SpyTask.evalList _ [] => .ok st
  | fuel + 1, st, SpyTask.evalList grps (e :: es) =>
    match spyRun aliases valid fuel st (SpyTask.evalExpr grps e) with
    | .error err => .error err
    | .ok st1 => spyRun aliases valid fuel st1 (SpyTask.evalList grps es)
  | fuel + 1, st, SpyTask.evalExpr _ (ColExpr.var n) =>
    spyRun aliases valid fuel st (SpyTask.getItem n)
  | fuel + 1, st, SpyTask.evalExpr grps (ColExpr.varF parts) =>
    match formatStr parts grps with
    | some n => spyRun aliases valid fuel st (SpyTask.getItem n)
    | none => .error PyErr.indexError
  | fuel + 1, st, SpyTask.evalExpr grps (ColExpr.addK e _) =>
    spyRun aliases valid fuel st (SpyTask.evalExpr grps e)
  | fuel + 1, st, SpyTask.evalExpr grps (ColExpr.mulK e _) =>
    spyRun aliases valid fuel st (SpyTask.evalExpr grps e)
  | fuel + 1, st, SpyTask.evalExpr grps (ColExpr.addE a b) =>
    match spyRun aliases valid fuel st (SpyTask.evalExpr grps a) with
    | .error err => .error err
    | .ok st1 => spyRun aliases valid fuel st1 (SpyTask.evalExpr grps b)

/-! ### Row-filter predicates -/

/-- Language of the `loc` row-filter lambdas used with the engine: a
comparison of a column expression against a constant, yielding a boolean mask. -/
inductive BExpr where
  | gtK (e : ColExpr) (k : Int)
  | ltK (e : ColExpr) (k : Int)
  deriving DecidableEq, Repr

/-- Trace pass over the row-filter predicate: the `_ = loc(spy)` call of
getAliasedDF, which evaluates the filter body against the spy. -/
def spyTraceB (aliases : List Alias) (valid : List String)
    (fuel : Nat) (st : SpyState) : BExpr → Except PyErr SpyState
  | BExpr.gtK e _ => spyRun aliases valid fuel st (SpyTask.evalExpr [] e)
  | BExpr.ltK e _ => spyRun aliases valid fuel st (SpyTask.evalExpr [] e)

/-! ### Series, tables, the data source -/

/-- A pandas Series: an optional name and the column data. -/
structure Series where
  sname : Option String
  data : List Int
  deriving DecidableEq, Repr

/-- Series.rename. -/
def Series.rename (s : Series) (n : String) : Series := ⟨some n, s.data⟩

/-- Series plus a scalar (keeps the name, as pandas does). -/
def Series.addK (s : Series) (k : Int) : Series :=
  ⟨s.sname, s.data.map (fun x => x + k)⟩

/-- Series times a scalar (keeps the name). -/
def Series.mulK (s : Series) (k : Int) : Series :=
  ⟨s.sname, s.data.map (fun x => x * k)⟩

/-- Series plus series (pandas keeps the name only when both agree). -/
def Series.addS (a b : Series) : Series :=
  ⟨if a.sname = b.sname then a.sname else none,
   List.zipWith (fun x y => x + y) a.data b.data⟩

/-- A DataFrame, as the engine consumes it: a list of named columns. -/
abbrev Table := List Series

/-- Column lookup by name, df[key] on a real frame. -/
def Table.col? (df : Table) (key : String) : Option Series :=
  df.find? (fun s => s.sname == some key)

/-- The data source, reduced to what getAliasedDF reads: the vardict
(ordered raw columns) and the bound alias group. -/
structure Source where
  vardict : List (String × List Int)
  alias_grp : Option AliasGroup

/-- source.vardict.keys(), the valid raw names. -/
def validOf (src : Source) : List String := src.vardict.map Prod.fst

/-- The bound group's aliases (empty when no group is bound). -/
def aliasesOf (src : Source) : List Alias :=
  match src.alias_grp with
  | none => []
  | some g => g.aliases

/-- Accumulating loop of _DataSource._clean_var_list: unknown names go to
the unknown list (with only a logged warning), known names are kept once in
first-occurrence order. -/
def clean_var_list_aux (keys : List String) :
    List String → List String → List String → List String × List String
  | clean, unk, [] => (clean, unk)
  | clean, unk, v :: vs =>
    if keys.contains v then
      if clean.contains v then clean_var_list_aux keys clean unk vs
      else clean_var_list_aux keys (clean ++ [v]) unk vs
    else clean_var_list_aux keys clean (unk ++ [v]) vs

/-- _DataSource._clean_var_list. -/
def clean_var_list (src : Source) (lst : List String) :
    List String × List String :=
  clean_var_list_aux (validOf src) [] [] lst

/-- _DataSource.get_df restricted to a name list: clean the list (silently
dropping unknown names) and select those columns in cleaned order; the
str/enum substitution of the storage layer is typing only and is the
identity here. -/
def get_df (src : Source) (lst : List String) : Table :=
  (clean_var_list src lst).1.filterMap
    (fun v => (src.vardict.lookup v).map (fun d => ⟨some v, d⟩))

/-! ### The materializing proxy (DFProxyAliasing) -/

/-- Result of a materialized lookup: a single series or a list of series
(the latter when a transform returns a list). -/
inductive MOut where
  | one (s : Series)
  | many (ss : List Series)
  deriving DecidableEq, Repr

/-- Work items of the materialize interpreter. -/
inductive MatTask where
  | getItem (key : String)
  | evalBody (grps : List String) (b : TBody)
  | evalExpr (grps : List String) (e : ColExpr)
  | evalList (grps : List String) (es : List ColExpr) (acc : List Series)
  deriving Repr

/-- DFProxyAliasing.__getitem__ together with transform evaluation against
real data.  The entry under the key decides everything: none means a plain
df[key]; otherwise the recorded alias's transform is re-invoked with the
recorded captured groups.  The source has no recursion guard here, so
running out of fuel models the Python stack overflowing (RecursionError). -/
def matRun (aliases : List Alias)
    (amap : List (String × Option (Nat × List String))) (df : Table) :
    Nat → MatTask → Except PyErr MOut
  | 0, _ => .error PyErr.recursionError
  | fuel + 1, MatTask.getItem key =>
    match amap.lookup key with
    | none => .error (PyErr.keyError key)
    | some none =>
      match Table.col? df key with
      | some s => .ok (MOut.one s)
      | none => .error (PyErr.keyError key)
    | some (some (i, grps)) =>
      match aliases.get? i with
      | some a => matRun aliases amap df fuel (MatTask.evalBody grps a.body)
      | none => .error PyErr.typeError
  | fuel + 1, MatTask.evalBody grps (TBody.one e) =>
    matRun aliases amap df fuel (MatTask.evalExpr grps e)
  | fuel + 1, MatTask.evalBody grps (TBody.many es) =>
    matRun aliases amap df fuel (MatTask.evalList grps es [])
  | _ + 1, MatTask.evalList _ [] acc => .ok (MOut.many acc)
  | fuel + 1, MatTask.evalList grps (e :: es) acc =>
    match matRun aliases amap df fuel (MatTask.evalExpr grps e) with
    | .error err => .error err
    | .ok (MOut.one s) => matRun aliases amap df fuel (MatTask.evalList grps es (acc ++ [s]))
    | .ok (MOut.many _) => .error PyErr.typeError
  | fuel + 1, MatTask.evalExpr _ (ColExpr.var n) =>
    matRun aliases amap df fuel (MatTask.getItem n)
  | fuel + 1, MatTask.evalExpr grps (ColExpr.varF parts) =>
    match formatStr parts grps with
    | some n => matRun aliases amap df fuel (MatTask.getItem n)
    | none => .error PyErr.indexError
  | fuel + 1, MatTask.evalExpr grps (ColExpr.addK e k) =>
    match matRun aliases amap df fuel (MatTask.evalExpr grps e) with
    | .error err => .error err
    | .ok (MOut.one s) => .ok (MOut.one (s.addK k))
    | .ok (MOut.many _) => .error PyErr.typeError
  | fuel + 1, MatTask.evalExpr grps (ColExpr.mulK e k) =>
    match matRun aliases amap df fuel (MatTask.evalExpr grps e) with
    | .error err => .error err
    | .ok (MOut.one s) => .ok (MOut.one (s.mulK k))
    | .ok (MOut.many _) => .error PyErr.typeError
  | fuel + 1, MatTask.evalExpr grps (ColExpr.addE a b) =>
    match matRun aliases amap df fuel (MatTask.evalExpr grps a) with
    | .error err => .error err
    | .ok (MOut.many _) => .error PyErr.typeError
    | .ok (MOut.one s1) =>
      match matRun aliases amap df fuel (MatTask.evalExpr grps b) with
      | .error err => .error err
      | .ok (MOut.many _) => .error PyErr.typeError
      | .ok (MOut.one s2) => .ok (MOut.one (s1.addS s2))

/-! ### Orchestration: manager.getAliasedDF -/

/-- Boolean mask applied to one column (df.loc[mask] row selection). -/
def maskCol (mask : List Bool) (xs : List Int) : List Int :=
  (xs.zip mask).filterMap (fun p => if p.2 then some p.1 else none)

/-- df.loc[mask] on a whole table. -/
def applyMask (df : Table) (mask : List Bool) : Table :=
  df.map (fun s => ⟨s.sname, maskCol mask s.data⟩)

/-- Positional slice a:b of a column (df.iloc[a:b]). -/
def sliceList (ab : Nat × Nat) (xs : List α) : List α :=
  (xs.drop ab.1).take (ab.2 - ab.1)

/-- df.iloc[iloc] when an iloc slice is given. -/
def applyIloc (iloc : Option (Nat × Nat)) (df : Table) : Table :=
  match iloc with
  | none => df
  | some ab => df.map (fun s => ⟨s.sname, sliceList ab s.data⟩)

/-- list(set(...)) of getAliasedDF, modelled as first-occurrence
deduplication (the Python set's iteration order is unspecified; only the
resulting name set reaches the source). -/
def dedupFirstAux (seen : List String) : List String → List String
  | [] => []
  | x :: xs =>
    if seen.contains x then dedupFirstAux seen xs
    else x :: dedupFirstAux (x :: seen) xs

/-- First-occurrence deduplication. -/
def dedupFirst (l : List String) : List String := dedupFirstAux [] l

/-- The `for vname in vnames: _ = spy[vname]` loop of getAliasedDF: trace
each requested name through the shared spy. -/
def spyItems (aliases : List Alias) (valid : List String) (fuel : Nat) :
    SpyState → List String → Except PyErr SpyState
  | st, [] => .ok st
  | st, v :: vs =>
    match spyRun aliases valid fuel st (SpyTask.getItem v) with
    | .error e => .error e
    | .ok st1 => spyItems aliases valid fuel st1 vs

/-- The output-building loop of getAliasedDF: for each requested name, take
df_proxy[vname]; a single series is renamed to the requested name and
appended, a list-valued result is extended in place under intrinsic names. -/
def materializeOut (aliases : List Alias)
    (amap : List (String × Option (Nat × List String))) (df : Table)
    (fuel : Nat) : List String → Except PyErr (List Series)
  | [] => .ok []
  | v :: vs =>
    match matRun aliases amap df fuel (MatTask.getItem v) with
    | .error e => .error e
    | .ok out =>
      match materializeOut aliases amap df fuel vs with
      | .error e => .error e
      | .ok tl =>
        match out with
        | MOut.one s => .ok (s.rename v :: tl)
        | MOut.many ss => .ok (ss ++ tl)

/-- pd.concat(series_out, axis=1): raises ValueError on an empty list. -/
def concatCols : List Series → Except PyErr Table
  | [] => .error PyErr.valueErrorConcat
  | s :: tl => .ok (s :: tl)

/-- Evaluation of the row-filter predicate against the materializing proxy,
`loc(df_proxy)`, producing the boolean row mask. -/
def matEvalB (aliases : List Alias)
    (amap : List (String × Option (Nat × List String))) (df : Table)
    (fuel : Nat) : BExpr → Except PyErr (List Bool)
  | BExpr.gtK e k =>
    match matRun aliases amap df fuel (MatTask.evalExpr [] e) with
    | .error err => .error err
    | .ok (MOut.one s) => .ok (s.data.map (fun x => decide (k < x)))
    | .ok (MOut.many _) => .error PyErr.typeError
  | BExpr.ltK e k =>
    match matRun aliases amap df fuel (MatTask.evalExpr [] e) with
    | .error err => .error err
    | .ok (MOut.one s) => .ok (s.data.map (fun x => decide (x < k)))
    | .ok (MOut.many _) => .error PyErr.typeError

/-- Python `vnames or vnames_valid`: None and the empty list are falsy. -/
def pyOrNames : Option (List String) → List String → List String
  | none, d => d
  | some [], d => d
  | some (v :: vs), _ => v :: vs

/-- Lines 192-206 of manager.py: fetch the traced raw columns, materialize
each requested name against the single aliasing map produced by the trace
pass, concat, filter by the predicate re-evaluated on the proxy, slice. -/
def materializeTail (fuel : Nat) (src : Source) (aliases : List Alias)
    (amap : List (String × Option (Nat × List String)))
    (vnames_used : List String) (vn : List String)
    (loc : Option BExpr) (iloc : Option (Nat × Nat)) : Except PyErr Table :=
  let df_used := get_df src vnames_used
  match materializeOut aliases amap df_used fuel vn with
  | .error e => .error e
  | .ok outs =>
    match concatCols outs with
    | .error e => .error e
    | .ok df0 =>
      match (match loc with
             | none => Except.ok df0
             | some b =>
               match matEvalB aliases amap df_used fuel b with
               | .error e => .error e
               | .ok mask => .ok (applyMask df0 mask)) with
      | .error e => .error e
      | .ok dfF => .ok (applyIloc iloc dfF)

/-- Lines 167-171 of manager.py: create the spy and run it over the filter
predicate when one is given. -/
def traceLoc (aliases : List Alias) (valid : List String) (fuel : Nat) :
    Option BExpr → Except PyErr SpyState
  | none => .ok SpyState.init
  | some b => spyTraceB aliases valid fuel SpyState.init b

/-- manager.getAliasedDF.  The trace over the filter predicate runs first
(even when the fast path is later taken); when no alias group is bound, no
group aliases exist, or vnames is None, the fast path returns the raw fetch
— except that its filter branch executes dead code referencing the
undefined names `src` and col_list_loc, a NameError.  Otherwise every
requested name is traced through the shared spy and the one resulting
aliasing map drives materialization, the filter mask and the slice. -/
def getAliasedDF (fuel : Nat) (src : Source) (vnames : Option (List String))
    (loc : Option BExpr) (iloc : Option (Nat × Nat)) : Except PyErr Table :=
  let aliases := aliasesOf src
  let valid := validOf src
  match traceLoc aliases valid fuel loc with
  | .error e => .error e
  | .ok stL =>
    if vnames.isNone || aliases.isEmpty then
      match loc with
      | none => .ok (applyIloc iloc (get_df src (pyOrNames vnames valid)))
      | some _ => .error (PyErr.nameError "src")
    else
      match vnames with
      | none => .error PyErr.typeError
      | some vn =>
        match spyItems aliases valid fuel stL vn with
        | .error e => .error e
        | .ok stV =>
          materializeTail fuel src aliases stV.aliasing_map
            (dedupFirst (stL.vnames_used ++ stV.vnames_used)) vn loc iloc

/-- The traced terminal-name list handed to source.get_df on the aliased
path (the vnames_used of lines 188-192 of manager.py). -/
def tracedVNames (fuel : Nat) (src : Source) (vn : List String)
    (loc : Option BExpr) : Except PyErr (List String) :=
  let aliases := aliasesOf src
  let valid := validOf src
  match traceLoc aliases valid fuel loc with
  | .error e => .error e
  | .ok stL =>
    match spyItems aliases valid fuel stL vn with
    | .error e => .error e
    | .ok stV => .ok (dedupFirst (stL.vnames_used ++ stV.vnames_used))

/-! ### The registry (manager.Manager group methods) -/

/-- An alias group as the registry sees it: its name and the names of the
sources it is bound to (Manager tracks aliases separately; they play no
role in the registration bug examined here). -/
structure MgrGroup where
  gname : String
  ref_sources : List String
  deriving DecidableEq, Repr

/-- Registry state: each source's bound group (by name) and the registered
groups. -/
structure MgrState where
  sources : List (String × Option String)
  alias_grps : List (String × MgrGroup)
  deriving DecidableEq, Repr

/-- Manager.set_alias_grp: bind the named group to each listed source
(warnings only when the group or a source does not exist). -/
def set_alias_grp (st : MgrState) (name : String)
    (assigned_srcs : List String) : MgrState :=
  match st.alias_grps.lookup name with
  | none => st
  | some _ =>
    assigned_srcs.foldl (fun acc srcName =>
      if (acc.sources.lookup srcName).isSome then
        { acc with
          sources := acc.sources.map
            (fun p => if p.1 = srcName then (p.1, some name) else p),
          alias_grps := acc.alias_grps.map
            (fun p => if p.1 = name then
                        (p.1, ⟨p.2.gname, p.2.ref_sources ++ [srcName]⟩)
                      else p) }
      else acc) st

/-- Manager.del_alias_grp: a missing group is only a warning; when the group
exists, the sources bound to it are unbound and then the loop header
`for a in alias_grp.aliases` reads the undefined name `alias_grp`
(the local is called ag), so the call raises NameError. -/
def del_alias_grp (st : MgrState) (name : String) : Except PyErr MgrState :=
  match st.alias_grps.lookup name with
  | none => .ok st
  | some _ => .error (PyErr.nameError "alias_grp")

/-- Manager.add_alias_grp: delete any previous group of the same name, then
create the new group and bind it to the given sources. -/
def add_alias_grp (st : MgrState) (name : String)
    (assigned_srcs : List String) : Except PyErr MgrState :=
  match del_alias_grp st name with
  | .error e => .error e
  | .ok st1 =>
    let st2 : MgrState :=
      { st1 with alias_grps := st1.alias_grps ++ [(name, ⟨name, []⟩)] }
    .ok (set_alias_grp st2 name assigned_srcs)

/-! ### Concrete fixtures used by the theorems below -/

/-- Alias matching "A": raw "X" plus 1 (the spec's transitive example). -/
def aliasA : Alias := ⟨litRE "A", TBody.one (ColExpr.addK (ColExpr.var "X") 1)⟩

/-- Alias matching "B": alias "A" times 2 (the spec's transitive example). -/
def aliasB : Alias := ⟨litRE "B", TBody.one (ColExpr.mulK (ColExpr.var "A") 2)⟩

/-- Source with one raw column X and the two-layer alias group. -/
def srcBA (xs : List Int) : Source := ⟨[("X", xs)], some ⟨[aliasA, aliasB]⟩⟩

/-- Self-referential alias: its transform requests its own name "A". -/
def aliasCyc : Alias := ⟨litRE "A", TBody.one (ColExpr.var "A")⟩

/-- Source whose bound group holds only the self-referential alias. -/
def srcCyc : Source := ⟨[("X", [0])], some ⟨[aliasCyc]⟩⟩

/-- The aliasing map the trace pass produces for srcCyc's request "A". -/
def amapCyc : List (String × Option (Nat × List String)) := [("A", some (0, []))]

/-- Source with no bound alias group. -/
def srcNoAl : Source := ⟨[("X", [1])], none⟩

/-- Alias matching "C": raw "Y" (a filter-only dependency). -/
def aliasC : Alias := ⟨litRE "C", TBody.one (ColExpr.var "Y")⟩

/-- Source for the filter-only discovery scenario. -/
def srcC7 (xs ys : List Int) : Source :=
  ⟨[("X", xs), ("Y", ys)], some ⟨[aliasA, aliasC]⟩⟩

/-- List-valued alias matching "L": expands to raw columns X and Y. -/
def aliasL : Alias := ⟨litRE "L", TBody.many [ColExpr.var "X", ColExpr.var "Y"]⟩

/-- An aliasing map with a single-column alias, a list-valued alias and two
terminals, as a trace over [aliasA, aliasL] records it. -/
def amapC8 : List (String × Option (Nat × List String)) :=
  [("A", some (0, [])), ("L", some (1, [])), ("X", none), ("Y", none)]

/-- A fetched raw table with columns X and Y. -/
def dfC8 : Table := [⟨some "X", [1]⟩, ⟨some "Y", [2]⟩]

/-- Second alias of the overlap scenario: matches "B", raw "Y". -/
def aliasB2 : Alias := ⟨litRE "B", TBody.one (ColExpr.var "Y")⟩

/-- Source whose requested name "AB" is matched by both group aliases. -/
def srcC9 (xs ys : List Int) : Source :=
  ⟨[("X", xs), ("Y", ys)], some ⟨[aliasA, aliasB2]⟩⟩

/-- Alias whose pattern "AL" occurs inside the valid raw name "BALD". -/
def aliasSub : Alias := ⟨litRE "AL", TBody.one (ColExpr.var "X")⟩

/-- Registry with one source "s" and no groups. -/
def mg0 : MgrState := ⟨[("s", none)], []⟩

/-- Whether an Except value holds a result. -/
def isOkE : Except PyErr MOut → Bool
  | .ok _ => true
  | .error _ => false

/-- How getAliasedDF's output loop turns one materialized lookup into output
columns: a single series is renamed to the requested name, a list-valued
result is inlined under intrinsic names, an error contributes nothing. -/
def expandOut (v : String) : Except PyErr MOut → List Series
  | .ok (MOut.one s) => [s.rename v]
  | .ok (MOut.many ss) => ss
  | .error _ => []

/-- Concatenation of per-name output columns in request order. -/
def expandAll (f : String → List Series) : List String → List Series
  | [] => []
  | v :: vs => f v ++ expandAll f vs

/-! ### Helper lemmas -/

/-- A literal pattern matches at a position where its characters start. -/
theorem REmatch_lit (p : List Char) :
    ∀ rest : List Char, REmatch (litChars p) (p ++ rest) = some ([], rest) := by
  induction p with
  | nil => intro rest; rfl
  | cons c t ih => intro rest; simp [litChars, REmatch, ih rest]

/-- A literal pattern has no groups, so any of its matches captures nothing. -/
theorem REmatch_lit_groups (p : List Char) :
    ∀ (s : List Char) (g : List String) (r : List Char),
      REmatch (litChars p) s = some (g, r) → g = [] := by
  induction p with
  | nil =>
    intro s g r h
    have h2 : some (([] : List String), s) = some (g, r) := h
    simp at h2
    exact h2.1
  | cons c t ih =>
    intro s g r h
    cases s with
    | nil => simp [litChars, REmatch] at h
    | cons c1 t1 =>
      simp only [litChars, REmatch] at h
      by_cases hc : c = c1
      · rw [if_pos hc] at h
        dsimp only at h
        cases het : REmatch (litChars t) t1 with
        | none => rw [het] at h; simp at h
        | some gr =>
          obtain ⟨g2, r2⟩ := gr
          rw [het] at h
          simp at h
          rw [← h.1]
          exact ih t1 g2 r2 het
      · rw [if_neg hc] at h
        simp at h

/-- Unanchored search succeeds on any string that contains the literal
pattern, and captures nothing. -/
theorem REsearch_lit (mid : List Char) :
    ∀ pre suf : List Char,
      REsearchChars (litChars mid) (pre ++ (mid ++ suf)) = some [] := by
  intro pre
  induction pre with
  | nil =>
    intro suf
    simp only [List.nil_append]
    cases mid with
    | nil =>
      cases suf with
      | nil => rfl
      | cons c t => rfl
    | cons c t =>
      have h := REmatch_lit (c :: t) suf
      simp only [List.cons_append] at h
      simp [REsearchChars, h]
  | cons c pre1 ih =>
    intro suf
    simp only [List.cons_append]
    cases hm : REmatch (litChars mid) (c :: (pre1 ++ (mid ++ suf))) with
    | some gr =>
      have hg := REmatch_lit_groups mid _ gr.1 gr.2 (by rw [hm])
      simp [REsearchChars, hm, hg]
    | none => simp [REsearchChars, hm, ih suf]

/-- The unguarded materializing proxy loops forever on the self-referential
alias: whatever the budget, it is exhausted (the Python stack overflows). -/
theorem matRun_cyc (df : Table) :
    ∀ fuel : Nat,
      matRun [aliasCyc] amapCyc df fuel (MatTask.getItem "A")
        = .error PyErr.recursionError
  | 0 => rfl
  | 1 => rfl
  | 2 => rfl
  | (f + 3) => matRun_cyc df f

/-! ### Claim theorems -/

/-- C2 counterexample: for the alias whose transform requests its own name
"A", the claimed RecursionLimitError (the spy counter's ValueError) is never
raised: the trace pass completes normally (the memoized map absorbs the
self-request), and the whole fetch then dies of the materializing proxy's
unbounded recursion — the stack overflow the claim says cannot happen. -/
theorem C2_counterexample :
    spyRun [aliasCyc] ["X"] 100 SpyState.init (SpyTask.getItem "A")
      = .ok ⟨[("A", some (0, []))], [], 2⟩
    ∧ getAliasedDF 2000 srcCyc (some ["A"]) none none
      = .error PyErr.recursionError := ⟨rfl, rfl⟩

/-- C2 amended: a fetch on a self-referential alias completes its trace pass
without any error (the aliasing map is written before the transform runs, so
the inner self-request is a memo hit), and the materialize pass then
re-invokes the recorded transform unboundedly — the per-session 1000-call
counter lives only in the spy, so the fetch ends in a Python stack overflow
(RecursionError), not in the spy's RecursionLimitError. -/
theorem C2_cycle_behavior :
    (∀ f : Nat, spyRun [aliasCyc] ["X"] (f + 4) SpyState.init (SpyTask.getItem "A")
        = .ok ⟨[("A", some (0, []))], [], 2⟩)
    ∧ (∀ (fuel : Nat) (df : Table),
        matRun [aliasCyc] amapCyc df fuel (MatTask.getItem "A")
          = .error PyErr.recursionError)
    ∧ getAliasedDF 2000 srcCyc (some ["A"]) none none
      = .error PyErr.recursionError :=
  ⟨fun _ => rfl, fun fuel df => matRun_cyc df fuel, rfl⟩

/-- C3: with alias "B" = raw "A" * 2 and alias "A" = raw "X" + 1, fetching
"B" reads exactly the terminal column list ["X"] from the source and returns
the single output column (X + 1) * 2 under the requested name. -/
theorem C3_transitive_aliasing (xs : List Int) :
    getAliasedDF 100 (srcBA xs) (some ["B"]) none none
      = .ok [⟨some "B", xs.map (fun x => (x + 1) * 2)⟩]
    ∧ tracedVNames 100 (srcBA xs) ["B"] none = .ok ["X"] := by
  constructor
  · have h : getAliasedDF 100 (srcBA xs) (some ["B"]) none none
        = .ok [⟨some "B", (xs.map (fun x => x + 1)).map (fun x => x * 2)⟩] := rfl
    rw [h, List.map_map]
    rfl
  · rfl

/-- C4 counterexample: on the no-alias fast path a requested name absent
from the source's valid names is silently dropped from the output (only a
warning is logged by _clean_var_list), instead of failing the fetch with an
error naming "Y" as the claim requires. -/
theorem C4_counterexample :
    getAliasedDF 100 srcNoAl (some ["Y", "X"]) none none
      = .ok [⟨some "X", [1]⟩] := rfl

/-- C4 amended: during tracing (the aliased path, and filter-referenced
names on every path) a name matching no alias and absent from the valid
names raises KeyError reporting that name; but a requested unknown name on
the no-alias fast path is silently dropped from the output. -/
theorem C4_unknown_name :
    (∀ (fuel : Nat) (aliases : List Alias) (valid : List String)
       (st : SpyState) (key : String),
        st.N_call + 1 ≤ 1000 →
        st.aliasing_map.lookup key = none →
        findMatch aliases key = none →
        valid.contains key = false →
        spyRun aliases valid (fuel + 1) st (SpyTask.getItem key)
          = .error (PyErr.keyError key))
    ∧ (∀ d : List Int,
        getAliasedDF 100 (⟨[("X", d)], none⟩ : Source) (some ["Y", "X"]) none none
          = .ok [⟨some "X", d⟩])
    ∧ (∀ d : List Int,
        getAliasedDF 100 (⟨[("X", d)], none⟩ : Source) (some ["X"])
            (some (BExpr.gtK (ColExpr.var "Z") 0)) none
          = .error (PyErr.keyError "Z")) := by
  refine ⟨?_, fun d => rfl, fun d => rfl⟩
  intro fuel aliases valid st key hc h1 h2 h3
  simp only [spyRun]
  rw [if_neg (by omega), h1, h2]
  have h3m : ¬ key ∈ valid := by simpa using h3
  simp [h3m]

/-- C4 witness for the amended theorem's hypotheses. -/
theorem C4_witness :
    spyRun [] ["X"] 6 SpyState.init (SpyTask.getItem "Q")
      = .error (PyErr.keyError "Q") :=
  C4_unknown_name.1 5 [] ["X"] SpyState.init "Q" (by decide) rfl rfl rfl

/-- C5: the fast path's filter branch is dead code referencing the undefined
local `src` (and col_list_loc), so a no-alias fetch with a row-filter raises
NameError instead of returning the filtered table; without a filter the fast
path does return source.get_df of the requested (or all valid) names,
restricted by the positional slice. -/
theorem C5_fastpath_filter_bug :
    getAliasedDF 100 srcNoAl (some ["X"]) (some (BExpr.gtK (ColExpr.var "X") 0)) none
      = .error (PyErr.nameError "src")
    ∧ (∀ (d : List Int) (a b : Nat),
        getAliasedDF 100 (⟨[("X", d)], none⟩ : Source) (some ["X"]) none (some (a, b))
          = .ok [⟨some "X", sliceList (a, b) d⟩])
    ∧ (∀ d : List Int,
        getAliasedDF 100 (⟨[("X", d)], none⟩ : Source) none none none
          = .ok [⟨some "X", d⟩]) :=
  ⟨rfl, fun _ _ _ => rfl, fun _ => rfl⟩

/-- C6: re-registering the group name "g" does not upsert: del_alias_grp,
called by add_alias_grp on the existing group, unbinds the group's sources
and then evaluates the undefined name `alias_grp` in its alias loop header,
so the second registration raises NameError (the first succeeds). -/
theorem C6_reregister_nameError :
    add_alias_grp mg0 "g" ["s"]
      = .ok ⟨[("s", some "g")], [("g", ⟨"g", ["s"]⟩)]⟩
    ∧ (add_alias_grp mg0 "g" ["s"]).bind (fun st1 => add_alias_grp st1 "g" [])
      = .error (PyErr.nameError "alias_grp") := ⟨rfl, rfl⟩

/-- C1: the two passes share one resolution map.  On the aliased path,
getAliasedDF hands the aliasing map produced by the trace pass, unchanged,
to the whole materialize/filter stage; a materializing lookup of a name
recorded as (alias i, groups) applies exactly that alias's transform to
exactly those captured groups; and the trace pass itself applied the very
transform and groups it recorded at resolution time — so both passes see
syntactically identical resolutions for every name. -/
theorem C1_shared_resolution_map :
    (∀ (fuel : Nat) (src : Source) (vn : List String) (loc : Option BExpr)
       (iloc : Option (Nat × Nat)) (stL stV : SpyState),
        traceLoc (aliasesOf src) (validOf src) fuel loc = .ok stL →
        (aliasesOf src).isEmpty = false →
        spyItems (aliasesOf src) (validOf src) fuel stL vn = .ok stV →
        getAliasedDF fuel src (some vn) loc iloc
          = materializeTail fuel src (aliasesOf src) stV.aliasing_map
              (dedupFirst (stL.vnames_used ++ stV.vnames_used)) vn loc iloc)
    ∧ (∀ (fuel : Nat) (aliases : List Alias)
         (amap : List (String × Option (Nat × List String))) (df : Table)
         (key : String) (i : Nat) (grps : List String) (a : Alias),
        amap.lookup key = some (some (i, grps)) →
        aliases.get? i = some a →
        matRun aliases amap df (fuel + 1) (MatTask.getItem key)
          = matRun aliases amap df fuel (MatTask.evalBody grps a.body))
    ∧ (∀ (fuel : Nat) (aliases : List Alias) (valid : List String)
         (st : SpyState) (key : String) (i : Nat) (grps : List String) (a : Alias),
        st.N_call + 1 ≤ 1000 →
        st.aliasing_map.lookup key = none →
        findMatch aliases key = some (i, grps) →
        aliases.get? i = some a →
        spyRun aliases valid (fuel + 1) st (SpyTask.getItem key)
          = spyRun aliases valid fuel
              { st with N_call := st.N_call + 1,
                        aliasing_map := st.aliasing_map ++ [(key, some (i, grps))] }
              (SpyTask.evalBody grps a.body)) := by
  refine ⟨?_, ?_, ?_⟩
  · intro fuel src vn loc iloc stL stV h1 h2 h3
    simp only [getAliasedDF, h1, h2, h3, Option.isNone_some, Bool.or_self,
      Bool.false_or]
    rfl
  · intro fuel aliases amap df key i grps a h1 h2
    simp only [matRun, h1, h2]
  · intro fuel aliases valid st key i grps a hc h1 h2 h3
    simp only [spyRun]
    rw [if_neg (by omega), h1, h2]
    rw [List.get?_eq_getElem?] at h3
    simp [h3]

/-- C1 witness: the three conjuncts instantiated on concrete inputs. -/
theorem C1_witness :
    getAliasedDF 20 (srcBA [1]) (some ["B"]) none none
      = materializeTail 20 (srcBA [1]) (aliasesOf (srcBA [1]))
          [("B", some (1, [])), ("A", some (0, [])), ("X", none)]
          (dedupFirst ([] ++ ["X"])) ["B"] none none
    ∧ matRun [aliasCyc] amapCyc [] 6 (MatTask.getItem "A")
      = matRun [aliasCyc] amapCyc [] 5 (MatTask.evalBody [] aliasCyc.body)
    ∧ spyRun [aliasA] ["X"] 6 SpyState.init (SpyTask.getItem "A")
      = spyRun [aliasA] ["X"] 5
          { SpyState.init with
              N_call := SpyState.init.N_call + 1,
              aliasing_map := SpyState.init.aliasing_map ++ [("A", some (0, []))] }
          (SpyTask.evalBody [] aliasA.body) :=
  ⟨C1_shared_resolution_map.1 20 (srcBA [1]) ["B"] none none SpyState.init
      ⟨[("B", some (1, [])), ("A", some (0, [])), ("X", none)], ["X"], 3⟩ rfl rfl rfl,
   C1_shared_resolution_map.2.1 5 [aliasCyc] amapCyc [] "A" 0 [] aliasCyc rfl rfl,
   C1_shared_resolution_map.2.2 5 [aliasA] ["X"] SpyState.init "A" 0 [] aliasA
      (by decide) rfl rfl rfl⟩

/-- C7: a name referenced only by the row-filter predicate (alias "C", whose
terminal dependency is "Y") is still traced, its terminal lands in the
column list fetched from the source (["Y", "X"]), the mask computed from it
is applied to the rows, and "C" itself is not an output column — the output
is the single requested column "A". -/
theorem C7_filter_only_dependency (xs ys : List Int) :
    getAliasedDF 100 (srcC7 xs ys) (some ["A"])
        (some (BExpr.gtK (ColExpr.var "C") 0)) none
      = .ok [⟨some "A", maskCol (ys.map (fun y => decide (0 < y)))
                                (xs.map (fun x => x + 1))⟩]
    ∧ tracedVNames 100 (srcC7 xs ys) ["A"] (some (BExpr.gtK (ColExpr.var "C") 0))
      = .ok ["Y", "X"] := ⟨rfl, rfl⟩

/-- C8: output columns come in requested-name order with list-valued
expansions inlined in place — the output loop is exactly the concatenation,
over the requested names in order, of the materialized result, renaming a
single column to the requested name and keeping intrinsic names for a
list-valued transform; and the row operations (boolean mask, positional
slice) each produce a sublist of the source rows, so row order is source
row order after filtering and slicing. -/
theorem C8_output_order :
    (∀ (aliases : List Alias)
       (amap : List (String × Option (Nat × List String))) (df : Table)
       (fuel : Nat) (vn : List String),
        (∀ v ∈ vn, isOkE (matRun aliases amap df fuel (MatTask.getItem v)) = true) →
        materializeOut aliases amap df fuel vn
          = .ok (expandAll
              (fun v => expandOut v (matRun aliases amap df fuel (MatTask.getItem v)))
              vn))
    ∧ (∀ (mask : List Bool) (xs : List Int), List.Sublist (maskCol mask xs) xs)
    ∧ (∀ (ab : Nat × Nat) (xs : List Int), List.Sublist (sliceList ab xs) xs) := by
  refine ⟨?_, ?_, ?_⟩
  · intro aliases amap df fuel vn h
    induction vn with
    | nil => rfl
    | cons v vs ih =>
      have hv := h v (List.mem_cons_self v vs)
      cases hm : matRun aliases amap df fuel (MatTask.getItem v) with
      | error e => rw [hm] at hv; simp [isOkE] at hv
      | ok out =>
        have ih2 := ih (fun w hw => h w (List.mem_cons_of_mem v hw))
        cases out with
        | one s => simp [materializeOut, hm, ih2, expandAll, expandOut]
        | many ss => simp [materializeOut, hm, ih2, expandAll, expandOut]
  · intro mask xs
    induction xs generalizing mask with
    | nil => simp [maskCol]
    | cons x xs ih =>
      cases mask with
      | nil => simp [maskCol]
      | cons b ms =>
        cases b with
        | false =>
          simpa [maskCol] using (ih ms).cons x
        | true =>
          simpa [maskCol] using (ih ms).cons₂ x
  · intro ab xs
    exact (List.take_sublist _ _).trans (List.drop_sublist _ _)

/-- C8 witness: the output-shape conjunct at a concrete request with a
single-column alias followed by a list-valued alias. -/
theorem C8_witness :
    materializeOut [aliasA, aliasL] amapC8 dfC8 10 ["A", "L"]
      = .ok (expandAll
          (fun v => expandOut v (matRun [aliasA, aliasL] amapC8 dfC8 10 (MatTask.getItem v)))
          ["A", "L"]) :=
  C8_output_order.1 [aliasA, aliasL] amapC8 dfC8 10 ["A", "L"] (by decide)

/-- C9: resolution commits to the first alias, in registration order, whose
regex matches: whenever the head alias matches a name, findMatch returns it
(whatever later aliases would do); registration appends, so list order is
registration order; and on the overlapping-pattern source the requested name
"AB" — matched by both aliases — yields the first alias's transform output
(X + 1), not the second's. -/
theorem C9_first_match_wins :
    (∀ (a1 : Alias) (tl : List Alias) (key : String) (g1 : List String),
        reSearch a1.regex key = some g1 →
        findMatch (a1 :: tl) key = some (0, g1))
    ∧ (∀ (g0 : AliasGroup) (a1 a2 : Alias),
        (addAliasToGroup (addAliasToGroup g0 a1) a2).aliases
          = g0.aliases ++ [a1, a2])
    ∧ (∀ xs ys : List Int,
        getAliasedDF 100 (srcC9 xs ys) (some ["AB"]) none none
          = .ok [⟨some "AB", xs.map (fun x => x + 1)⟩]) := by
  refine ⟨?_, ?_, fun xs ys => rfl⟩
  · intro a1 tl key g1 h
    simp [findMatch, h]
  · intro g0 a1 a2
    simp [addAliasToGroup]

/-- C9 witness: both fixtures' patterns match "AB" and the first wins. -/
theorem C9_witness : findMatch [aliasA, aliasB2] "AB" = some (0, []) :=
  C9_first_match_wins.1 aliasA [aliasB2] "AB" [] rfl

/-- C10: alias patterns are matched by unanchored search — a literal pattern
is found (capturing nothing) inside any name that contains it, not only as a
full match; hence the valid raw name "BALD", which merely contains the alias
pattern "AL", is resolved through the alias (its map entry records the
alias, "BALD" is not traced as a terminal), and a fetch of "BALD" returns
the alias transform's data (column X), not the raw "BALD" column. -/
theorem C10_unanchored_search :
    (∀ pre mid suf : String,
        reSearch (litRE mid) (pre ++ mid ++ suf) = some [])
    ∧ spyRun [aliasSub] ["BALD", "X"] 10 SpyState.init (SpyTask.getItem "BALD")
        = .ok ⟨[("BALD", some (0, [])), ("X", none)], ["X"], 2⟩
    ∧ (∀ xs ys : List Int,
        getAliasedDF 100 (⟨[("BALD", xs), ("X", ys)], some ⟨[aliasSub]⟩⟩ : Source)
            (some ["BALD"]) none none
          = .ok [⟨some "BALD", ys⟩]) := by
  refine ⟨?_, rfl, fun xs ys => rfl⟩
  intro pre mid suf
  have h : (pre ++ mid ++ suf).data = pre.data ++ (mid.data ++ suf.data) := by
    simp [List.append_assoc]
  unfold reSearch litRE
  rw [h]
  exact REsearch_lit mid.data pre.data suf.data

end Epyp
